import Mathlib

/-!
Verification of the natural-language specification of the
`python-amber-electric` client library against a shallow embedding of its
source code.

Conventions of the embedding:
* Python floats are modelled as rationals (`ℚ`).
* Wall-clock instants and durations are modelled as integer microseconds
  (the resolution of Python `datetime`), counted from `datetime.min`.
* A Python attribute that may be absent is an `Option`; an attribute that
  is always assigned but may hold `None` is likewise an `Option`, with the
  accessor distinguishing the two situations (an absent attribute raises
  `AttributeError`, an operation on a stored `None` raises `TypeError`).
* Fallible code returns `Except PyError α`.
* Network traffic is scripted: a request sees a predetermined list of
  attempt outcomes, and the time spent inside a single HTTP call is taken
  as zero, so elapsed time is exactly the sum of the backoff sleeps.
-/

/-- The Python runtime errors that the embedded code can raise. -/
inductive PyError where
  | attributeError
  | typeError
  | keyError
  | unboundLocalError
deriving DecidableEq, Repr

/-! ## Transport layer (`protocol/protocol.py`) -/

/-- A `requests` response as far as the protocol layer inspects it:
only its `status_code` attribute matters (`None` models a response object
whose `status_code` is falsy / absent). -/
structure HTTPResponse where
  status_code : Option Nat
deriving DecidableEq, Repr

/-- `AmberElectricAPIError` (`exceptions.py`): the constructor stores the
`response` attribute only when one is passed, and the `response` property
falls back to `None` when the attribute is absent; `hasException` records
whether the wrapped low-level exception was attached. -/
structure APIError where
  response : Option HTTPResponse
  hasException : Bool
deriving DecidableEq, Repr

/-- `fatal_code` (`protocol.py` line 26):
`return 400 <= e.response.status_code < 500`.
When `e.response` is `None` (an error raised with no response object),
evaluating `None.status_code` raises `AttributeError`; when the response
has no integer status code, comparing `400 <= None` raises `TypeError`. -/
def fatal_code (e : APIError) : Except PyError Bool :=
  match e.response with
  | none => .error .attributeError
  | some r =>
    match r.status_code with
    | none => .error .typeError
    | some c => .ok (decide (400 ≤ c ∧ c < 500))

/-- The outcome of one underlying `session.request` call. -/
inductive Attempt where
  | netFail
  | response (r : HTTPResponse)
deriving DecidableEq, Repr

/-- One pass through the body of `Protocol.__request` (`protocol.py`
lines 160-218), given the outcome of the underlying HTTP call:
a raised low-level exception becomes an `AmberElectricAPIError` carrying
the exception and no response; a response with a falsy `status_code`
raises with the response attached; then 401/403 raise, then every other
non-2xx status raises; a 2xx returns the parsed body. -/
def doRequest (a : Attempt) : Except APIError Unit :=
  match a with
  | .netFail => .error { response := none, hasException := true }
  | .response r =>
    match r.status_code with
    | none => .error { response := some r, hasException := false }
    | some c =>
      if c = 401 ∨ c = 403 then
        .error { response := some r, hasException := false }
      else if 200 ≤ c ∧ c ≤ 299 then
        .ok ()
      else
        .error { response := some r, hasException := false }

/-- The waits produced by the `backoff.fibo` generator: 1, 1, 2, 3, 5, … -/
def fibo : Nat → Nat
  | 0 => 1
  | 1 => 1
  | n + 2 => fibo n + fibo (n + 1)

/-- `max_time=300` from the `backoff.on_exception` decorator on
`Protocol.__request`. -/
def MAX_TIME : Nat := 300

/-- How a retried request ends. -/
inductive ReqOutcome where
  | success
  | failed (e : APIError)
  | crashed (e : PyError)
deriving DecidableEq, Repr

/-- The `backoff.on_exception(backoff.fibo, AmberElectricAPIError,
max_time=300, giveup=fatal_code)` retry loop around `Protocol.__request`,
modelled from the backoff library semantics with deterministic waits
(jitter taken as the identity) and instantaneous requests: on an
`AmberElectricAPIError`, `giveup` is evaluated first (an exception it
raises propagates uncaught); otherwise the call is re-raised once the
elapsed time has reached `max_time`; otherwise the next Fibonacci wait,
capped at the remaining budget, is slept and the call retried.
Returns the outcome and the number of attempts made; `none` means the
scripted attempt list was exhausted. -/
def runBackoff : List Attempt → Nat → Nat → Nat → Option (ReqOutcome × Nat)
  | [], _, _, _ => none
  | a :: rest, fibIdx, elapsed, tries =>
    match doRequest a with
    | .ok _ => some (.success, tries + 1)
    | .error e =>
      match fatal_code e with
      | .error pe => some (.crashed pe, tries + 1)
      | .ok giveup =>
        if giveup then
          some (.failed e, tries + 1)
        else if MAX_TIME ≤ elapsed then
          some (.failed e, tries + 1)
        else
          runBackoff rest (fibIdx + 1) (elapsed + min (fibo fibIdx) (MAX_TIME - elapsed)) (tries + 1)

/-! ## Settlement-period arithmetic (`market/market.py`) -/

/-- `_NEM_SETTLEMENT_PERIOD = timedelta(minutes=30)`, in microseconds. -/
def SETTLEMENT_US : Int := 30 * 60 * 1000000

/-- `Market.current_period` (`market.py` lines 100-104):
`now + (datetime.min - now) % timedelta(minutes=30)`, with instants in
microseconds since `datetime.min` (so 30-minute-aligned instants are
exactly the multiples of `SETTLEMENT_US`); Python's `%` on timedeltas is
the floored modulus, which for a positive modulus agrees with `Int.emod`. -/
def current_period (now : Int) : Int :=
  now + (0 - now) % SETTLEMENT_US

/-- `_TAX_GST_OFFSET = 0.1` (`market.py` line 18). -/
def GST_OFFSET : ℚ := 1/10

/-- The normalisation applied by every GST-adjusted accessor:
`value / 100 / (1 + _TAX_GST_OFFSET)`. -/
def gst_net (v : ℚ) : ℚ := v / 100 / (1 + GST_OFFSET)

/-- The `PriceData` static-tariff record of `market.py` (lines 486-549):
`__init__` assigns each private attribute only when the matching payload
key is present, so `none` models an absent attribute (whose accessor's
`except AttributeError` returns `None`). Field names follow the payload
keys; accessor names follow the property names. -/
structure MarketPriceData where
  dataAvailable : Option Bool := none
  networkDailyPrice : Option ℚ := none
  basicMeterDailyPrice : Option ℚ := none
  additionalSmartMeterDailyPrice : Option ℚ := none
  amberDailyPrice : Option ℚ := none
  totalDailyPrice : Option ℚ := none
  networkKWHPrice : Option ℚ := none
  marketKWHPrice : Option ℚ := none
  greenKWHPrice : Option ℚ := none
  carbonNeutralKWHPrice : Option ℚ := none
  lossFactor : Option ℚ := none
  offsetKWHPrice : Option ℚ := none
  totalfixedKWHPrice : Option ℚ := none
  totalBlackPeakFixedKWHPrice : Option ℚ := none
  totalBlackShoulderFixedKWHPrice : Option ℚ := none
  totalBlackOffpeakFixedKWHPrice : Option ℚ := none
deriving DecidableEq, Repr

def MarketPriceData.data_available (p : MarketPriceData) : Option Bool :=
  p.dataAvailable

def MarketPriceData.network_daily_price (p : MarketPriceData) : Option ℚ :=
  p.networkDailyPrice.map gst_net

def MarketPriceData.basic_meter_daily_price (p : MarketPriceData) : Option ℚ :=
  p.basicMeterDailyPrice.map gst_net

def MarketPriceData.additional_smart_meter_daily_price (p : MarketPriceData) : Option ℚ :=
  p.additionalSmartMeterDailyPrice.map gst_net

def MarketPriceData.amber_daily_price (p : MarketPriceData) : Option ℚ :=
  p.amberDailyPrice.map gst_net

def MarketPriceData.total_daily_price (p : MarketPriceData) : Option ℚ :=
  p.totalDailyPrice.map gst_net

def MarketPriceData.network_kwh_price (p : MarketPriceData) : Option ℚ :=
  p.networkKWHPrice.map gst_net

def MarketPriceData.market_kwh_price (p : MarketPriceData) : Option ℚ :=
  p.marketKWHPrice.map gst_net

def MarketPriceData.green_kwh_price (p : MarketPriceData) : Option ℚ :=
  p.greenKWHPrice.map gst_net

def MarketPriceData.carbon_neutral_kwh_price (p : MarketPriceData) : Option ℚ :=
  p.carbonNeutralKWHPrice.map gst_net

/-- `loss_factor` is returned raw, with no GST normalisation. -/
def MarketPriceData.loss_factor (p : MarketPriceData) : Option ℚ :=
  p.lossFactor

def MarketPriceData.offset_kwh_price (p : MarketPriceData) : Option ℚ :=
  p.offsetKWHPrice.map gst_net

def MarketPriceData.total_fixed_kwh_price (p : MarketPriceData) : Option ℚ :=
  p.totalfixedKWHPrice.map gst_net

def MarketPriceData.total_black_peak_fixed_kwh_price (p : MarketPriceData) : Option ℚ :=
  p.totalBlackPeakFixedKWHPrice.map gst_net

def MarketPriceData.total_black_shoulder_fixed_kwh_price (p : MarketPriceData) : Option ℚ :=
  p.totalBlackShoulderFixedKWHPrice.map gst_net

def MarketPriceData.total_black_offpeak_fixed_kwh_price (p : MarketPriceData) : Option ℚ :=
  p.totalBlackOffpeakFixedKWHPrice.map gst_net

/-! ## Variable market periods (`market.py`, `VariablePeriod`) -/

/-- Digits of the `^\d+` group of `_RE_AMBER_PERIOD_TYPE`: at least one
character, all ASCII digits, read as a decimal number. -/
def digitsToNat (cs : List Char) : Option Nat :=
  if cs ≠ [] ∧ cs.all Char.isDigit then
    some (cs.foldl (fun a c => a * 10 + (c.toNat - 48)) 0)
  else
    none

/-- Strip `suf` from the end of `cs`, when it is a suffix. -/
def stripSuffix (cs suf : List Char) : Option (List Char) :=
  if suf.isSuffixOf cs then some (cs.take (cs.length - suf.length)) else none

/-- The `periodSource` duration parsing of `VariablePeriod.__init__`
(`market.py` lines 276-293): the code is uppercased and matched against
`_RE_AMBER_PERIOD_TYPE`, whose alternatives are the fully anchored
patterns digits+`SEC`, digits+`MIN`, digits+`HOUR`, digits+`DAY`; a match
yields the corresponding `timedelta` (here: microseconds), no match
yields `none` (the `__period_delta` attribute is left unassigned). -/
def parsePeriodDelta (code : String) : Option Int :=
  let cs := code.toList.map Char.toUpper
  match stripSuffix cs ['S', 'E', 'C'] with
  | some ds => (digitsToNat ds).map (fun n => (n : Int) * 1000000)
  | none =>
  match stripSuffix cs ['M', 'I', 'N'] with
  | some ds => (digitsToNat ds).map (fun n => (n : Int) * 60000000)
  | none =>
  match stripSuffix cs ['H', 'O', 'U', 'R'] with
  | some ds => (digitsToNat ds).map (fun n => (n : Int) * 3600000000)
  | none =>
  match stripSuffix cs ['D', 'A', 'Y'] with
  | some ds => (digitsToNat ds).map (fun n => (n : Int) * 86400000000)
  | none => none

/-- One entry of the `variablePricesAndRenewables` list, as
`VariablePeriod.__init__` reads it. `period` and `createdAt` are datetime
strings; they are modelled pre-parsed as instants (`none` = key absent). -/
structure PeriodPayload where
  period : Option Int := none
  periodSource : Option String := none
  periodType : Option String := none
  semiScheduledGeneration : Option ℚ := none
  operationalDemand : Option ℚ := none
  rooftopSolar : Option ℚ := none
  createdAt : Option Int := none
  wholesaleKWHPrice : Option ℚ := none
  region : Option String := none
  renewablesPercentage : Option ℚ := none
deriving DecidableEq, Repr

/-- The state built by `VariablePeriod.__init__`. Every field except
`period_delta` is assigned unconditionally (with `None` when the payload
key is absent); `period_delta` is assigned only on a regex match. -/
structure VariablePeriod where
  period_end : Int
  period_delta : Option Int
  periodType : Option String
  semiScheduledGeneration : Option ℚ
  operationalDemand : Option ℚ
  rooftopSolar : Option ℚ
  createdAt : Option Int
  wholesaleKWHPrice : Option ℚ
  region : Option String
  renewablesPercentage : Option ℚ
deriving DecidableEq, Repr

/-- `VariablePeriod.__init__` (`market.py` lines 269-340): a payload
without the `period` key raises
`AttributeError("Period must be supplied and valid")`; then
`price_payload["periodSource"]` raises `KeyError` when that key is
absent; otherwise every field is extracted. -/
def VariablePeriod.ofPayload (pp : PeriodPayload) : Except PyError VariablePeriod :=
  match pp.period with
  | none => .error .attributeError
  | some pend =>
    match pp.periodSource with
    | none => .error .keyError
    | some src =>
      .ok { period_end := pend
            period_delta := parsePeriodDelta src
            periodType := pp.periodType
            semiScheduledGeneration := pp.semiScheduledGeneration
            operationalDemand := pp.operationalDemand
            rooftopSolar := pp.rooftopSolar
            createdAt := pp.createdAt
            wholesaleKWHPrice := pp.wholesaleKWHPrice
            region := pp.region
            renewablesPercentage := pp.renewablesPercentage }

/-- `VariablePeriod.ts`: `period_end.timestamp()`; `__period_end` is
always assigned, so the `AttributeError` fallback never fires. -/
def VariablePeriod.ts (p : VariablePeriod) : Int := p.period_end

/-- `VariablePeriod.period_start` (`market.py` lines 420-431):
`period_end - _NEM_SETTLEMENT_PERIOD + timedelta(milliseconds=1)`
(the truthiness guard is vacuous: a `datetime` and a non-zero
`timedelta` are always truthy). -/
def VariablePeriod.period_start (p : VariablePeriod) : Int :=
  p.period_end - SETTLEMENT_US + 1000

/-- `VariablePeriod.wholesale_kwh_price` (`market.py` lines 399-404):
`__wholesale_kwh_price / 100 / (1 + _TAX_GST_OFFSET)`. The attribute is
always assigned (possibly `None`), so the `except AttributeError` branch
is unreachable; dividing a stored `None` raises `TypeError` instead. -/
def VariablePeriod.wholesale_kwh_price (p : VariablePeriod) : Except PyError ℚ :=
  match p.wholesaleKWHPrice with
  | none => .error .typeError
  | some v => .ok (v / 100 / (1 + GST_OFFSET))

/-! ## Market state and derived prices (`market.py`, `Market`) -/

/-- Python truthiness of an optional float: `None` and `0.0` are falsy. -/
def ratTruthy : Option ℚ → Bool
  | none => false
  | some x => decide (x ≠ 0)

/-- Insertion-ordered dict update, as used for `__periods[ts] = period`:
an existing key keeps its position with the value overwritten, a new key
is appended. -/
def dictInsert (l : List (Int × VariablePeriod)) (k : Int) (v : VariablePeriod) :
    List (Int × VariablePeriod) :=
  if l.any (fun p => p.1 == k) then
    l.map (fun p => if p.1 == k then (k, v) else p)
  else
    l ++ [(k, v)]

/-- The `VariablePeriodData` period dictionary, keyed by `ts`. -/
structure VariableData where
  periods : List (Int × VariablePeriod)
deriving DecidableEq, Repr

/-- `VariablePeriodData.get_period`: plain key lookup, `None` on miss. -/
def VariableData.get_period (vd : VariableData) (ts : Int) : Option VariablePeriod :=
  (vd.periods.find? (fun p => p.1 == ts)).map (fun p => p.2)

/-- `VariablePeriodData.__init__` body (`market.py` lines 229-236): build
each `VariablePeriod` in payload order (a missing mandatory field aborts
with the raised error) and store it under its `ts` key when that key is
truthy (a timestamp of exactly 0 is falsy and skipped). -/
def buildPeriods (acc : List (Int × VariablePeriod)) :
    List PeriodPayload → Except PyError (List (Int × VariablePeriod))
  | [] => .ok acc
  | pp :: rest => do
    let vp ← VariablePeriod.ofPayload pp
    if vp.ts ≠ 0 then
      buildPeriods (dictInsert acc vp.ts vp) rest
    else
      buildPeriods acc rest

/-- The `data` object of a `prices/listprices` response, as
`Market.update` reads it. -/
structure MarketDataPayload where
  variablePricesAndRenewables : Option (List PeriodPayload) := none
  currentNEMtime : Option Int := none
  networkProvider : Option String := none
  staticE1 : Option MarketPriceData := none
  staticE2 : Option MarketPriceData := none
  staticB1 : Option MarketPriceData := none
  staticE1TOU : Option MarketPriceData := none
deriving DecidableEq, Repr

/-- A `prices/listprices` response envelope (`none` data = no `"data"`
key in the body). -/
structure MarketEnvelope where
  data : Option MarketDataPayload
deriving DecidableEq, Repr

/-- The mutable state of a `Market` instance: each `Option` field is
`none` while the corresponding private attribute has never been assigned
(the accessor property then returns `None` via `except AttributeError`). -/
structure MarketState where
  postcode : Option Int := none
  variableData : Option VariableData := none
  nemtime : Option Int := none
  networkProvider : Option String := none
  e1 : Option MarketPriceData := none
  e2 : Option MarketPriceData := none
  b1 : Option MarketPriceData := none
  e1tou : Option MarketPriceData := none
deriving DecidableEq, Repr

/-- The response-handling part of `Market.update` (`market.py` lines
57-80), after the location checks and the HTTP call: a falsy response or
one without a `"data"` key returns `None` (`false`) leaving the state
untouched; otherwise the period dictionary is rebuilt (a bad period
record aborts with its error), `currentNEMtime` and each static schedule
are stored when present (kept otherwise), and `networkProvider` is
always reassigned. -/
def Market.updateFromResponse (m : MarketState) (resp : Option MarketEnvelope) :
    Except PyError (MarketState × Bool) :=
  match resp with
  | none => .ok (m, false)
  | some env =>
    match env.data with
    | none => .ok (m, false)
    | some d => do
      let periods ← match d.variablePricesAndRenewables with
        | none => pure []
        | some l => buildPeriods [] l
      let m := { m with variableData := some ⟨periods⟩ }
      let m := match d.currentNEMtime with
        | some t => { m with nemtime := some t }
        | none => m
      let m := { m with networkProvider := d.networkProvider }
      let m := match d.staticE1 with
        | some p => { m with e1 := some p }
        | none => m
      let m := match d.staticE2 with
        | some p => { m with e2 := some p }
        | none => m
      let m := match d.staticB1 with
        | some p => { m with b1 := some p }
        | none => m
      let m := match d.staticE1TOU with
        | some p => { m with e1tou := some p }
        | none => m
      pure (m, true)

/-- `Market.current_variable`: look the current settlement boundary up
in the period dictionary (reached only when `__variable` exists). -/
def Market.current_variable (vd : VariableData) (now : Int) : Option VariablePeriod :=
  vd.get_period (current_period now)

/-- `Market.usage_price` (`market.py` lines 146-159): requires the E1
schedule and the variable data to exist and a period at the current
boundary; reads `total_fixed_kwh_price` and `loss_factor` from E1 and
`wholesale_kwh_price` from the period (a stored `None` wholesale raises
`TypeError` out of the property); returns `None` when any operand is
falsy, else `fixed + loss_factor * wholesale`. -/
def Market.usage_price (m : MarketState) (now : Int) : Except PyError (Option ℚ) :=
  match m.e1, m.variableData with
  | some e1, some vd =>
    match Market.current_variable vd now with
    | none => .ok none
    | some pd => do
      let fixed := e1.total_fixed_kwh_price
      let lossf := e1.loss_factor
      let wholesale ← pd.wholesale_kwh_price
      if ratTruthy fixed ∧ ratTruthy lossf ∧ wholesale ≠ 0 then
        pure (some (fixed.getD 0 + lossf.getD 0 * wholesale))
      else
        pure none
  | _, _ => .ok none

/-- `Market.export_price` (`market.py` lines 161-174). Faithful to the
source, the presence guard tests `self.e1` (not `self.b1`); the operands
are then read from `self.b1`, so `None.total_fixed_kwh_price` raises
`AttributeError` whenever B1 is absent while E1 is present. -/
def Market.export_price (m : MarketState) (now : Int) : Except PyError (Option ℚ) :=
  match m.e1, m.variableData with
  | some _, some vd =>
    match Market.current_variable vd now with
    | none => .ok none
    | some pd =>
      match m.b1 with
      | none => .error .attributeError
      | some b1 => do
        let fixed := b1.total_fixed_kwh_price
        let lossf := b1.loss_factor
        let wholesale ← pd.wholesale_kwh_price
        if ratTruthy fixed ∧ ratTruthy lossf ∧ wholesale ≠ 0 then
          pure (some (fixed.getD 0 + lossf.getD 0 * wholesale))
        else
          pure none
  | _, _ => .ok none

/-! ## Price mapper (`price/price.py`) -/

/-- Rounding half to even, as Python `round` on floats. -/
def roundHalfEven (q : ℚ) : Int :=
  let f := Int.floor q
  let frac := q - f
  if frac < 1/2 then f
  else if 1/2 < frac then f + 1
  else if f % 2 = 0 then f else f + 1

/-- Python `round(x, 2)`. -/
def round2 (q : ℚ) : ℚ := (roundHalfEven (q * 100) : ℚ) / 100

/-- One price record of a `Price/GetPriceList` response, as
`price.py`'s `PriceData.__init__` reads it (the `current*` keys for the
live price, the bare keys for a forecast entry); `period` instants are
modelled pre-parsed. -/
structure PricePayload where
  currentPriceKWH : Option ℚ := none
  priceKWH : Option ℚ := none
  currentRenewableInGrid : Option ℚ := none
  renewableInGrid : Option ℚ := none
  currentPriceColor : Option String := none
  color : Option String := none
  currentPricePeriod : Option Int := none
  period : Option Int := none
deriving DecidableEq, Repr

/-- The `data` object of a `Price/GetPriceList` response: `record` holds
the price-record keys read by `CurrentPrice`, `forecastPrices` the list
read by `ForecastPrices` (`none` = key absent). -/
structure PriceDataPayload where
  record : PricePayload := {}
  forecastPrices : Option (List PricePayload) := none
deriving DecidableEq, Repr

/-- The state built by `price.py`'s `PriceData.__init__` (lines 65-98):
all four attributes are assigned unconditionally, holding `None` when
both candidate keys are absent. -/
structure PriceSnapshot where
  price_kwh : Option ℚ
  renewable : Option ℚ
  color : Option String
  period : Option Int
deriving DecidableEq, Repr

/-- `price.py` `PriceData.__init__`: prefer the `current*` key, fall back
to the bare key, store `None` otherwise. -/
def PriceSnapshot.ofPayload (p : PricePayload) : PriceSnapshot :=
  { price_kwh := match p.currentPriceKWH with
      | some v => some v
      | none => p.priceKWH
    renewable := match p.currentRenewableInGrid with
      | some v => some v
      | none => p.renewableInGrid
    color := match p.currentPriceColor with
      | some c => some c
      | none => p.color
    period := match p.currentPricePeriod with
      | some t => some t
      | none => p.period }

/-- `PriceData.kwh` (`price.py` lines 114-119): `round(self.__price_kwh, 2)`
inside `try/except AttributeError`. The attribute is always assigned, so
the fallback never fires; `round(None, 2)` raises `TypeError`, which the
handler does not catch. -/
def PriceSnapshot.kwh (p : PriceSnapshot) : Except PyError ℚ :=
  match p.price_kwh with
  | none => .error .typeError
  | some v => .ok (round2 v)

/-- `PriceData.renewable` (`price.py` lines 121-126):
`round(self.__renewable / 100, 2)`; dividing a stored `None` raises
`TypeError`, uncaught by the `except AttributeError` handler. -/
def PriceSnapshot.renewable_pct (p : PriceSnapshot) : Except PyError ℚ :=
  match p.renewable with
  | none => .error .typeError
  | some v => .ok (round2 (v / 100))

/-- `PriceData.ts`: `self.__period.timestamp()`; a stored `None` raises
`AttributeError` (`None` has no `timestamp`), which IS caught, so the
accessor returns `None`. -/
def PriceSnapshot.ts (p : PriceSnapshot) : Option Int := p.period

/-- `PriceData.color` property: `self.__color.lower()`; a stored `None`
raises `AttributeError`, caught, yielding `None`. -/
def PriceSnapshot.color_lower (p : PriceSnapshot) : Option String :=
  p.color.map String.toLower

/-- Insertion-ordered dict update for the forecast dictionary. -/
def dictInsertPrice (l : List (Int × PriceSnapshot)) (k : Int) (v : PriceSnapshot) :
    List (Int × PriceSnapshot) :=
  if l.any (fun p => p.1 == k) then
    l.map (fun p => if p.1 == k then (k, v) else p)
  else
    l ++ [(k, v)]

/-- The dictionary built by `ForecastPrices.__init__` (`price.py` lines
39-47): one snapshot per forecast record, keyed by truthy `ts`,
last-write-wins. -/
def buildForecast (acc : List (Int × PriceSnapshot)) :
    List PricePayload → List (Int × PriceSnapshot)
  | [] => acc
  | pp :: rest =>
    let price := PriceSnapshot.ofPayload pp
    match price.ts with
    | some t =>
      if t ≠ 0 then
        buildForecast (dictInsertPrice acc t price) rest
      else
        buildForecast acc rest
    | none => buildForecast acc rest

/-- The state of a `Price` mapper instance. -/
structure PriceState where
  current : Option PriceSnapshot := none
  forecast : Option (List (Int × PriceSnapshot)) := none
deriving DecidableEq, Repr

/-- A `Price/GetPriceList` response envelope. -/
structure PriceEnvelope where
  data : Option PriceDataPayload
deriving DecidableEq, Repr

/-- `Price.update` (`price.py` lines 15-22), given the response of its
single API call: a falsy response or one without a `"data"` key returns
`None` (`false`) and leaves the state untouched; otherwise the current
and forecast snapshots are rebuilt from the `data` object. -/
def Price.update (st : PriceState) (resp : Option PriceEnvelope) : PriceState × Bool :=
  match resp with
  | none => (st, false)
  | some env =>
    match env.data with
    | none => (st, false)
    | some d =>
      ({ current := some (PriceSnapshot.ofPayload d.record)
         forecast := some (buildForecast [] (d.forecastPrices.getD [])) }, true)

/-! ## Usage mapper (`usage/usage.py`) -/

/-- A `UsageHub/GetUsageForHub` response envelope; the mapper keeps no
state beyond logging. -/
structure UsageEnvelope where
  data : Option Unit
deriving DecidableEq, Repr

/-- `Usage.update` (`usage.py` lines 16-27): returns `None` (`false`)
unless the response is truthy and has a `"data"` key. -/
def Usage.update (resp : Option UsageEnvelope) : Bool :=
  match resp with
  | none => false
  | some env => env.data.isSome

/-! ## Authentication (`auth/auth.py`) -/

/-- Python truthiness of an optional string: `None` and `""` are falsy. -/
def strTruthy : Option String → Bool
  | none => false
  | some s => decide (s ≠ "")

/-- Where a call to `auth(...)` ends before any network traffic. -/
inductive AuthOutcome where
  | unboundLocal
  | configError (msg : String)
  | networkCall
deriving DecidableEq, Repr

/-- The pre-network part of `auth` (`auth/auth.py` lines 12-46),
faithful to the source: the function assigns the names `__PROTOCOL`,
`__USERNAME`, `__PASSWORD` without `global` declarations, so they are
locals that stay unassigned when the corresponding argument is `None`;
reading an unassigned local (`if not __PROTOCOL`, or inside
`__USERNAME and __PASSWORD`, whose `and` short-circuits on a falsy
left operand) raises `UnboundLocalError`; a falsy assigned credential
raises `AmberElectricAPIError("No username and password available")`;
otherwise the `Authentication/SignIn` request is issued. -/
def auth_precheck (protocol : Option Unit) (username password : Option String) :
    AuthOutcome :=
  match protocol with
  | none => .unboundLocal
  | some _ =>
    match username with
    | none => .unboundLocal
    | some u =>
      if u = "" then .configError "No username and password available"
      else
        match password with
        | none => .unboundLocal
        | some p =>
          if p = "" then .configError "No username and password available"
          else .networkCall

/-! ## Client facade (`main.py`) -/

/-- The state of an `AmberElectric` client. `price` and `usage` are
`none` when the `__price` / `__usage` attributes were never assigned
(no credentials at construction). -/
structure AmberClient where
  price : Option PriceState
  usage : Option Unit
  market : MarketState
deriving DecidableEq, Repr

/-- `AmberElectric.__init__` (`main.py` lines 39-80): each credential
falls back to its environment variable when the argument is falsy, and
the `Price` and `Usage` mappers are created only when both resolved
credentials are truthy; the `Market` mapper is always created. -/
def AmberElectric.mk (username password envUsername envPassword : Option String)
    (postcode : Option Int) : AmberClient :=
  let apiU := if strTruthy username then username else envUsername
  let apiP := if strTruthy password then password else envPassword
  { price := if strTruthy apiU ∧ strTruthy apiP then some {} else none
    usage := if strTruthy apiU ∧ strTruthy apiP then some () else none
    market := { postcode := postcode } }

/-- `AmberElectric.update` (`main.py` lines 85-91), given the responses
of the three sub-resource calls. Faithful to the source, each guard
reads the private attribute directly (`if self.__price:`), so an
attribute that was never assigned raises `AttributeError`; the mapper
objects themselves are truthy whenever assigned. -/
def AmberElectric.update (c : AmberClient) (priceResp : Option PriceEnvelope)
    (usageResp : Option UsageEnvelope) (marketResp : Option MarketEnvelope) :
    Except PyError AmberClient :=
  match c.price with
  | none => .error .attributeError
  | some ps =>
    let ps1 := (Price.update ps priceResp).1
    match c.usage with
    | none => .error .attributeError
    | some _ =>
      let _ := Usage.update usageResp
      match Market.updateFromResponse c.market marketResp with
      | .error e => .error e
      | .ok (m1, _) => .ok { c with price := some ps1, market := m1 }

/-! ## Theorems -/

/-- C1: the claim says a network-level failure (no response object) is
classified retryable and retried, and that `fatal_code` returns a boolean
for every raised transport error. The code refutes both: on such an error
`fatal_code` evaluates `None.status_code` and raises `AttributeError`, so
the very first failure crashes the retry wrapper — even when the next
attempt would have succeeded — with exactly one attempt made and no
retry. -/
theorem fatal_code_crashes_on_network_failure :
    fatal_code { response := none, hasException := true } =
      .error PyError.attributeError ∧
    runBackoff [Attempt.netFail, Attempt.response ⟨some 200⟩] 0 0 0 =
      some (ReqOutcome.crashed PyError.attributeError, 1) := by
  constructor
  · rfl
  · rfl

/-- C2: every response status in 400–499 makes the retry wrapper give up
on the first attempt, whatever traffic would have followed; and any run
of 503 responses that fits the 300-unit Fibonacci backoff budget (at most
12 failures, since the 13th failing attempt already sees the budget
exhausted) followed by a 200 succeeds, using one attempt per scripted
response. -/
theorem retry_give_up_and_budget :
    (∀ (c : Nat) (rest : List Attempt), 400 ≤ c → c < 500 →
      runBackoff (Attempt.response ⟨some c⟩ :: rest) 0 0 0 =
        some (ReqOutcome.failed ⟨some ⟨some c⟩, false⟩, 1)) ∧
    (∀ n : Nat, n ≤ 12 →
      runBackoff (List.replicate n (Attempt.response ⟨some 503⟩) ++
          [Attempt.response ⟨some 200⟩]) 0 0 0 =
        some (ReqOutcome.success, n + 1)) := by
  constructor
  · intro c rest h1 h2
    have hd : doRequest (Attempt.response ⟨some c⟩) =
        .error ⟨some ⟨some c⟩, false⟩ := by
      unfold doRequest
      by_cases h3 : c = 401 ∨ c = 403
      · simp [h3]
      · have h4 : ¬(200 ≤ c ∧ c ≤ 299) := by omega
        simp [h3, h4]
    have hf : fatal_code ⟨some ⟨some c⟩, false⟩ = .ok true := by
      unfold fatal_code
      simp only [Except.ok.injEq, decide_eq_true_eq]
      omega
    simp [runBackoff, hd, hf]
  · decide

/-- Witness for C2 at concrete inputs: a single 404 gives up with one
attempt; three 503s then a 200 succeed on the fourth attempt. -/
theorem retry_give_up_and_budget_spot :
    runBackoff [Attempt.response ⟨some 404⟩] 0 0 0 =
      some (ReqOutcome.failed ⟨some ⟨some 404⟩, false⟩, 1) ∧
    runBackoff (List.replicate 3 (Attempt.response ⟨some 503⟩) ++
        [Attempt.response ⟨some 200⟩]) 0 0 0 =
      some (ReqOutcome.success, 4) :=
  ⟨retry_give_up_and_budget.1 404 [] (by decide) (by decide),
   retry_give_up_and_budget.2 3 (by decide)⟩

/-- C3: `current_period` maps an instant `t` to the smallest
30-minute-aligned instant that is ≥ `t` (alignment = multiple of the
settlement duration, measured from `datetime.min`), and every variable
period's `period_start` is its `period_end` minus 30 minutes plus one
millisecond. -/
theorem current_period_resolution (t : Int) :
    t ≤ current_period t ∧
    current_period t % SETTLEMENT_US = 0 ∧
    (∀ u : Int, u % SETTLEMENT_US = 0 → t ≤ u → current_period t ≤ u) ∧
    (∀ p : VariablePeriod, p.period_start = p.period_end - SETTLEMENT_US + 1000) := by
  refine ⟨?_, ?_, ?_, ?_⟩
  · unfold current_period SETTLEMENT_US
    omega
  · unfold current_period SETTLEMENT_US
    omega
  · intro u hu ht
    unfold current_period SETTLEMENT_US at *
    omega
  · intro p
    rfl

/-- Witness for C3 at concrete inputs: the instant 100 µs is resolved to
an aligned boundary no later than the first settlement boundary. -/
theorem current_period_resolution_spot :
    current_period 100 ≤ 1800000000 :=
  (current_period_resolution 100).2.2.1 1800000000 (by decide) (by decide)

/-- The GST normalisation in spec form: dividing cents by 100 and by 1.1. -/
theorem gst_net_eq (v : ℚ) : gst_net v = v / 100 / (11/10) := by
  unfold gst_net GST_OFFSET
  norm_num

/-- C4: every GST-inclusive cent value stored in the payload — the
wholesale kWh price of a variable period and each fixed-tariff money
field of the static `PriceData` record — is returned by its accessor as
the pre-tax dollar value `v / 100 / 1.1`. -/
theorem gst_accessor_normalisation (p : MarketPriceData) (vp : VariablePeriod) (v : ℚ) :
    (vp.wholesaleKWHPrice = some v →
      vp.wholesale_kwh_price = .ok (v / 100 / (11/10))) ∧
    (p.networkDailyPrice = some v →
      p.network_daily_price = some (v / 100 / (11/10))) ∧
    (p.basicMeterDailyPrice = some v →
      p.basic_meter_daily_price = some (v / 100 / (11/10))) ∧
    (p.additionalSmartMeterDailyPrice = some v →
      p.additional_smart_meter_daily_price = some (v / 100 / (11/10))) ∧
    (p.amberDailyPrice = some v →
      p.amber_daily_price = some (v / 100 / (11/10))) ∧
    (p.totalDailyPrice = some v →
      p.total_daily_price = some (v / 100 / (11/10))) ∧
    (p.networkKWHPrice = some v →
      p.network_kwh_price = some (v / 100 / (11/10))) ∧
    (p.marketKWHPrice = some v →
      p.market_kwh_price = some (v / 100 / (11/10))) ∧
    (p.greenKWHPrice = some v →
      p.green_kwh_price = some (v / 100 / (11/10))) ∧
    (p.carbonNeutralKWHPrice = some v →
      p.carbon_neutral_kwh_price = some (v / 100 / (11/10))) ∧
    (p.offsetKWHPrice = some v →
      p.offset_kwh_price = some (v / 100 / (11/10))) ∧
    (p.totalfixedKWHPrice = some v →
      p.total_fixed_kwh_price = some (v / 100 / (11/10))) ∧
    (p.totalBlackPeakFixedKWHPrice = some v →
      p.total_black_peak_fixed_kwh_price = some (v / 100 / (11/10))) ∧
    (p.totalBlackShoulderFixedKWHPrice = some v →
      p.total_black_shoulder_fixed_kwh_price = some (v / 100 / (11/10))) ∧
    (p.totalBlackOffpeakFixedKWHPrice = some v →
      p.total_black_offpeak_fixed_kwh_price = some (v / 100 / (11/10))) := by
  refine ⟨?_, ?_, ?_, ?_, ?_, ?_, ?_, ?_, ?_, ?_, ?_, ?_, ?_, ?_, ?_⟩ <;>
    intro h
  · unfold VariablePeriod.wholesale_kwh_price
    rw [h, ← gst_net_eq]
    rfl
  all_goals
    simp only [MarketPriceData.network_daily_price,
      MarketPriceData.basic_meter_daily_price,
      MarketPriceData.additional_smart_meter_daily_price,
      MarketPriceData.amber_daily_price, MarketPriceData.total_daily_price,
      MarketPriceData.network_kwh_price, MarketPriceData.market_kwh_price,
      MarketPriceData.green_kwh_price, MarketPriceData.carbon_neutral_kwh_price,
      MarketPriceData.offset_kwh_price, MarketPriceData.total_fixed_kwh_price,
      MarketPriceData.total_black_peak_fixed_kwh_price,
      MarketPriceData.total_black_shoulder_fixed_kwh_price,
      MarketPriceData.total_black_offpeak_fixed_kwh_price,
      h, Option.map_some', gst_net_eq]

/-- A static tariff record with every payload key present, each cent
value 11, used to exercise the accessors at a concrete input. -/
def sampleTariff : MarketPriceData :=
  { dataAvailable := some true
    networkDailyPrice := some 11
    basicMeterDailyPrice := some 11
    additionalSmartMeterDailyPrice := some 11
    amberDailyPrice := some 11
    totalDailyPrice := some 11
    networkKWHPrice := some 11
    marketKWHPrice := some 11
    greenKWHPrice := some 11
    carbonNeutralKWHPrice := some 11
    lossFactor := some 1
    offsetKWHPrice := some 11
    totalfixedKWHPrice := some 11
    totalBlackPeakFixedKWHPrice := some 11
    totalBlackShoulderFixedKWHPrice := some 11
    totalBlackOffpeakFixedKWHPrice := some 11 }

/-- A variable period ending at the first settlement boundary after
`datetime.min`, with a stored wholesale price of 22 cents. -/
def samplePeriod : VariablePeriod :=
  { period_end := 1800000000
    period_delta := some 1800000000
    periodType := some "ACTUAL"
    semiScheduledGeneration := none
    operationalDemand := none
    rooftopSolar := none
    createdAt := none
    wholesaleKWHPrice := some 22
    region := some "NSW"
    renewablesPercentage := none }

/-- Witness for C4 at a concrete input: every accessor of `sampleTariff`
and the wholesale accessor of `samplePeriod` yield the claimed pre-tax
dollar values. -/
theorem gst_accessor_normalisation_spot :
    samplePeriod.wholesale_kwh_price = .ok (22 / 100 / (11/10)) ∧
    sampleTariff.network_daily_price = some (11 / 100 / (11/10)) ∧
    sampleTariff.basic_meter_daily_price = some (11 / 100 / (11/10)) ∧
    sampleTariff.additional_smart_meter_daily_price = some (11 / 100 / (11/10)) ∧
    sampleTariff.amber_daily_price = some (11 / 100 / (11/10)) ∧
    sampleTariff.total_daily_price = some (11 / 100 / (11/10)) ∧
    sampleTariff.network_kwh_price = some (11 / 100 / (11/10)) ∧
    sampleTariff.market_kwh_price = some (11 / 100 / (11/10)) ∧
    sampleTariff.green_kwh_price = some (11 / 100 / (11/10)) ∧
    sampleTariff.carbon_neutral_kwh_price = some (11 / 100 / (11/10)) ∧
    sampleTariff.offset_kwh_price = some (11 / 100 / (11/10)) ∧
    sampleTariff.total_fixed_kwh_price = some (11 / 100 / (11/10)) ∧
    sampleTariff.total_black_peak_fixed_kwh_price = some (11 / 100 / (11/10)) ∧
    sampleTariff.total_black_shoulder_fixed_kwh_price = some (11 / 100 / (11/10)) ∧
    sampleTariff.total_black_offpeak_fixed_kwh_price = some (11 / 100 / (11/10)) := by
  have h22 := gst_accessor_normalisation sampleTariff samplePeriod 22
  have h11 := gst_accessor_normalisation sampleTariff samplePeriod 11
  exact ⟨h22.1 rfl, h11.2.1 rfl, h11.2.2.1 rfl, h11.2.2.2.1 rfl,
    h11.2.2.2.2.1 rfl, h11.2.2.2.2.2.1 rfl, h11.2.2.2.2.2.2.1 rfl,
    h11.2.2.2.2.2.2.2.1 rfl, h11.2.2.2.2.2.2.2.2.1 rfl,
    h11.2.2.2.2.2.2.2.2.2.1 rfl, h11.2.2.2.2.2.2.2.2.2.2.1 rfl,
    h11.2.2.2.2.2.2.2.2.2.2.2.1 rfl, h11.2.2.2.2.2.2.2.2.2.2.2.2.1 rfl,
    h11.2.2.2.2.2.2.2.2.2.2.2.2.2.1 rfl, h11.2.2.2.2.2.2.2.2.2.2.2.2.2.2 rfl⟩

/-- An E1 schedule with a total fixed kWh price of 11 cents and a loss
factor of 1. -/
def e1Sample : MarketPriceData := { totalfixedKWHPrice := some 11, lossFactor := some 1 }

/-- A market state holding the E1 schedule and a variable period at the
first settlement boundary, but no B1 schedule. -/
def marketSample : MarketState :=
  { postcode := some 2000
    variableData := some ⟨[(1800000000, samplePeriod)]⟩
    e1 := some e1Sample
    b1 := none }

/-- C5: the claim says `export_price` takes its operands from the B1
schedule and returns `None` whenever an operand is missing. The code
refutes it: the presence guard tests the E1 schedule, so with E1 and
variable data present but B1 absent, `self.b1.total_fixed_kwh_price`
dereferences `None` and raises `AttributeError` instead of returning
`None`. On the usage side the claim holds: whenever the E1 schedule, the
variable data, a period at the current boundary and all three operands
are present and non-zero, `usage_price` is exactly
`fixed_kwh_price + loss_factor * wholesale_kwh_price` with the E1
operands (`gst_net` being the cents-to-pre-tax-dollars accessor map). -/
theorem export_price_crashes_without_b1 :
    Market.export_price marketSample 1800000000 = .error PyError.attributeError ∧
    (∀ (m : MarketState) (now : Int) (e1 : MarketPriceData) (vd : VariableData)
      (pd : VariablePeriod) (f l w : ℚ),
      m.e1 = some e1 → m.variableData = some vd →
      Market.current_variable vd now = some pd →
      e1.totalfixedKWHPrice = some f → e1.lossFactor = some l →
      pd.wholesaleKWHPrice = some w →
      gst_net f ≠ 0 → l ≠ 0 → gst_net w ≠ 0 →
      Market.usage_price m now = .ok (some (gst_net f + l * gst_net w))) := by
  constructor
  · rfl
  · intro m now e1 vd pd f l w h1 h2 h3 h4 h5 h6 hf hl hw
    have hws : pd.wholesale_kwh_price = .ok (gst_net w) := by
      unfold VariablePeriod.wholesale_kwh_price
      rw [h6]
      rfl
    have hfix : e1.total_fixed_kwh_price = some (gst_net f) := by
      unfold MarketPriceData.total_fixed_kwh_price
      rw [h4]
      rfl
    have hlf : e1.loss_factor = some l := h5
    have htf : ratTruthy (some (gst_net f)) = true := by
      simp [ratTruthy, hf]
    have htl : ratTruthy (some l) = true := by
      simp [ratTruthy, hl]
    unfold Market.usage_price
    simp only [h1, h2, h3, hfix, hlf, hws, bind, Except.bind, htf, htl]
    rw [if_pos]
    · rfl
    · exact ⟨trivial, trivial, hw⟩

/-- Witness for C5's usage-price half at a concrete input: on
`marketSample` at the first settlement boundary, `usage_price` is
`gst_net 11 + 1 * gst_net 22`. -/
theorem export_price_crashes_without_b1_spot :
    Market.usage_price marketSample 1800000000 =
      .ok (some (gst_net 11 + 1 * gst_net 22)) :=
  export_price_crashes_without_b1.2 marketSample 1800000000 e1Sample
    ⟨[(1800000000, samplePeriod)]⟩ samplePeriod 11 1 22 rfl rfl rfl rfl rfl rfl
    (by norm_num [gst_net, GST_OFFSET]) (by norm_num)
    (by norm_num [gst_net, GST_OFFSET])

/-- C6: the claim says `update()` completes without raising when no
credentials were supplied, refreshing only the market data. The code
refutes it: a client built with no username or password never assigns
the `__price` attribute, and `update()`'s `if self.__price:` guard reads
it directly, raising `AttributeError` before any sub-resource is
refreshed. With credentials, the same call refreshes the configured
sub-resources and returns without raising. -/
theorem update_crashes_without_credentials :
    AmberElectric.update (AmberElectric.mk none none none none (some 2000))
      none none none = .error PyError.attributeError ∧
    AmberElectric.update
      (AmberElectric.mk (some "user") (some "secret") none none (some 2000))
      none none (some ⟨some { networkProvider := some "Ausgrid" }⟩) =
      .ok { price := some {}
            usage := some ()
            market := { postcode := some 2000
                        variableData := some ⟨[]⟩
                        networkProvider := some "Ausgrid" } } := by
  constructor
  · rfl
  · rfl

/-- C7: the claim says every call with a missing transport handle or
missing/empty credentials raises a configuration error before any
network call. The code only half satisfies it: `auth`'s module-level
fallback names are assigned without `global`, so a `None` argument
leaves the local unassigned and the guard raises `UnboundLocalError`
instead of the configuration error; an assigned-but-empty credential
does raise `AmberElectricAPIError` before any network call, and full
arguments proceed to the sign-in request. -/
theorem auth_precheck_outcomes :
    auth_precheck none (some "user") (some "secret") = .unboundLocal ∧
    auth_precheck (some ()) none (some "secret") = .unboundLocal ∧
    auth_precheck (some ()) (some "user") none = .unboundLocal ∧
    auth_precheck (some ()) (some "user") (some "") =
      .configError "No username and password available" ∧
    auth_precheck (some ()) (some "") none =
      .configError "No username and password available" ∧
    auth_precheck (some ()) (some "user") (some "secret") = .networkCall := by
  refine ⟨rfl, rfl, ?_, ?_, ?_, ?_⟩ <;> decide

/-- C8: every domain mapper's update treats a falsy response or a
response without a `data` envelope as "no update available": it returns
`None` without raising and without touching its state; and a market
period payload missing the mandatory `period` field raises
(`AttributeError`), aborting the parsing of that record. -/
theorem data_envelope_guard :
    (∀ st : PriceState, Price.update st none = (st, false)) ∧
    (∀ (st : PriceState) (env : PriceEnvelope), env.data = none →
      Price.update st (some env) = (st, false)) ∧
    Usage.update none = false ∧
    (∀ env : UsageEnvelope, env.data = none → Usage.update (some env) = false) ∧
    (∀ m : MarketState, Market.updateFromResponse m none = .ok (m, false)) ∧
    (∀ (m : MarketState) (env : MarketEnvelope), env.data = none →
      Market.updateFromResponse m (some env) = .ok (m, false)) ∧
    (∀ pp : PeriodPayload, pp.period = none →
      VariablePeriod.ofPayload pp = .error PyError.attributeError) := by
  refine ⟨fun st => rfl, ?_, rfl, ?_, fun m => rfl, ?_, ?_⟩
  · intro st env h
    unfold Price.update
    simp only [h]
  · intro env h
    unfold Usage.update
    simp only [h, Option.isSome_none]
  · intro m env h
    unfold Market.updateFromResponse
    simp only [h]
  · intro pp h
    unfold VariablePeriod.ofPayload
    rw [h]

/-- Witness for C8 at concrete inputs: each mapper given an envelope
whose `data` key is absent, and a period payload with no `period` key. -/
theorem data_envelope_guard_spot :
    Price.update {} (some ⟨none⟩) = ({}, false) ∧
    Usage.update (some ⟨none⟩) = false ∧
    Market.updateFromResponse {} (some ⟨none⟩) = .ok ({}, false) ∧
    VariablePeriod.ofPayload {} = .error PyError.attributeError := by
  have h := data_envelope_guard
  exact ⟨h.2.1 {} ⟨none⟩ rfl, h.2.2.2.1 ⟨none⟩ rfl,
    h.2.2.2.2.2.1 {} ⟨none⟩ rfl, h.2.2.2.2.2.2 {} rfl⟩

/-- C9: the duration code of a period source parses by the pattern
digits+`SEC`/`MIN`/`HOUR`/`DAY`: `"5MIN"` is five minutes, `"1HOUR"` one
hour, `"30SEC"` thirty seconds (in microseconds); and any code the
pattern rejects leaves the constructed period's `period_delta` unset
while construction still succeeds. -/
theorem duration_code_parsing :
    parsePeriodDelta "5MIN" = some 300000000 ∧
    parsePeriodDelta "1HOUR" = some 3600000000 ∧
    parsePeriodDelta "30SEC" = some 30000000 ∧
    parsePeriodDelta "FORTNIGHT" = none ∧
    (∀ (pp : PeriodPayload) (t : Int) (code : String),
      pp.period = some t → pp.periodSource = some code →
      parsePeriodDelta code = none →
      ∃ vp, VariablePeriod.ofPayload pp = .ok vp ∧ vp.period_delta = none) := by
  refine ⟨by decide, by decide, by decide, by decide, ?_⟩
  intro pp t code hp hs hnone
  refine ⟨{ period_end := t
            period_delta := parsePeriodDelta code
            periodType := pp.periodType
            semiScheduledGeneration := pp.semiScheduledGeneration
            operationalDemand := pp.operationalDemand
            rooftopSolar := pp.rooftopSolar
            createdAt := pp.createdAt
            wholesaleKWHPrice := pp.wholesaleKWHPrice
            region := pp.region
            renewablesPercentage := pp.renewablesPercentage }, ?_, hnone⟩
  unfold VariablePeriod.ofPayload
  rw [hp, hs]

/-- Witness for C9's unrecognized-code half at a concrete input: a
payload whose period source is `"FOO"` constructs with no duration. -/
theorem duration_code_parsing_spot :
    ∃ vp, VariablePeriod.ofPayload
        { period := some 60, periodSource := some "FOO" } = .ok vp ∧
      vp.period_delta = none :=
  duration_code_parsing.2.2.2.2 _ 60 "FOO" rfl rfl (by decide)

/-- C10: a price payload carrying neither `currentPriceKWH` nor
`priceKWH` still constructs a snapshot (the attribute is assigned the
value `None`), but reading `kwh` then raises `TypeError` — the
accessor's `except AttributeError` does not cover the stored-`None`
case; likewise `renewable` when both renewable keys are absent. -/
theorem stored_none_accessor_raises :
    (∀ p : PricePayload, p.currentPriceKWH = none → p.priceKWH = none →
      (PriceSnapshot.ofPayload p).kwh = .error PyError.typeError) ∧
    (∀ p : PricePayload, p.currentRenewableInGrid = none → p.renewableInGrid = none →
      (PriceSnapshot.ofPayload p).renewable_pct = .error PyError.typeError) := by
  constructor
  · intro p h1 h2
    unfold PriceSnapshot.kwh PriceSnapshot.ofPayload
    rw [h1, h2]
  · intro p h1 h2
    unfold PriceSnapshot.renewable_pct PriceSnapshot.ofPayload
    rw [h1, h2]

/-- Witness for C10 at a concrete input: the empty payload constructs,
and both accessors raise `TypeError`. -/
theorem stored_none_accessor_raises_spot :
    (PriceSnapshot.ofPayload {}).kwh = .error PyError.typeError ∧
    (PriceSnapshot.ofPayload {}).renewable_pct = .error PyError.typeError :=
  ⟨stored_none_accessor_raises.1 {} rfl rfl,
   stored_none_accessor_raises.2 {} rfl rfl⟩
